import Mathlib

/-
Shallow embedding of the ai-content-workflow server handlers.

Tables are Lean lists of records mirroring src/server/src/db/schema.ts;
each handler is a pure function over those lists, returning Except for
the errors the TypeScript code throws.  Timestamps are naturals
(milliseconds since the epoch); `now` is passed explicitly where the
code calls `new Date()`.
-/

namespace ContentWorkflow

/-- Enum social_media_platform from src/server/src/db/schema.ts. -/
inductive Platform
  | instagram
  | facebook
  | twitter
  | linkedin
  deriving DecidableEq

/-- Enum content_type from src/server/src/db/schema.ts. -/
inductive ContentType
  | post
  | story
  | reel
  | tweet
  deriving DecidableEq

/-- Enum content_status from src/server/src/db/schema.ts. -/
inductive ContentStatus
  | draft
  | pending_approval
  | approved
  | rejected
  | scheduled
  | published
  deriving DecidableEq

/-- Enum workflow_step_type from src/server/src/db/schema.ts. -/
inductive StepType
  | generation
  | review
  | approval
  | scheduling
  deriving DecidableEq

/-- Row of the content table (src/server/src/db/schema.ts, contentTable). -/
structure Content where
  id : Nat
  user_id : Nat
  title : String
  caption : String
  hashtags : Option String
  platform : Platform
  content_type : ContentType
  status : ContentStatus
  ai_generated : Bool
  scheduled_at : Option Nat
  approved_at : Option Nat
  approved_by : Option Nat
  rejected_reason : Option String
  created_at : Nat
  updated_at : Nat
  deriving DecidableEq

/-- Row of the users table. -/
structure User where
  id : Nat
  email : String
  name : String
  created_at : Nat
  updated_at : Nat
  deriving DecidableEq

/-- Row of the workflow_templates table. -/
structure WorkflowTemplate where
  id : Nat
  user_id : Nat
  name : String
  description : Option String
  is_active : Bool
  created_at : Nat
  updated_at : Nat
  deriving DecidableEq

/-- Row of the workflow_steps table. -/
structure WorkflowStep where
  id : Nat
  workflow_template_id : Nat
  step_order : Nat
  step_type : StepType
  required : Bool
  assignee_id : Option Nat
  created_at : Nat
  deriving DecidableEq

/-- Row of the content_workflow_instances table; status is free text
('in_progress', 'completed', 'cancelled') as in the schema. -/
structure WorkflowInstanceRow where
  id : Nat
  content_id : Nat
  workflow_template_id : Nat
  current_step_id : Option Nat
  status : String
  started_at : Nat
  completed_at : Option Nat
  deriving DecidableEq

/-- The relational store: one list per table. -/
structure DB where
  users : List User
  contents : List Content
  templates : List WorkflowTemplate
  steps : List WorkflowStep
  instances : List WorkflowInstanceRow
  deriving DecidableEq

/-- The error taxonomy the handlers throw (spec section 7): NotFound cites
the missing id, ValidationError and PreconditionFailed carry the thrown
message. -/
inductive ApiError
  | notFound (id : Nat)
  | validation (msg : String)
  | precondition (msg : String)
  deriving DecidableEq

/-- Input of approveContent (approveContentInputSchema in
src/server/src/schema.ts); rejection_reason is optional. -/
structure ApproveContentInput where
  content_id : Nat
  approved_by : Nat
  approved : Bool
  rejection_reason : Option String
  deriving DecidableEq

/-- JavaScript `a || d` on an optional string: undefined and the empty
string are falsy, so both fall back to the default. -/
def orFalsy : Option String → String → String
  | none, d => d
  | some s, d => if s = "" then d else s

/-- Field updates approveContent applies to the matching row
(src/unnamed/part_000, lines 18-33). -/
def approveUpdate (now : Nat) (input : ApproveContentInput) (c : Content) : Content :=
  if input.approved then
    { c with
      status := ContentStatus.approved
      approved_by := some input.approved_by
      approved_at := some now
      rejected_reason := none
      updated_at := now }
  else
    { c with
      status := ContentStatus.rejected
      rejected_reason := some (orFalsy input.rejection_reason "No reason provided")
      approved_by := none
      approved_at := none
      updated_at := now }

/-- approveContent (src/unnamed/part_000): select the row by id, throw
NotFound when absent, otherwise update every row with that id. -/
def approveContent (db : List Content) (now : Nat) (input : ApproveContentInput) :
    Except ApiError (List Content) :=
  if (db.filter (fun c => c.id == input.content_id)).isEmpty then
    Except.error (ApiError.notFound input.content_id)
  else
    Except.ok (db.map (fun c =>
      if c.id == input.content_id then approveUpdate now input c else c))

/-- Field updates scheduleContent applies to the matching row
(src/unnamed/part_002, lines 32-37). -/
def scheduleUpdate (now t : Nat) (c : Content) : Content :=
  { c with
    scheduled_at := some t
    status := ContentStatus.scheduled
    updated_at := now }

/-- Field updates unscheduleContent applies to the matching row
(src/unnamed/part_002, lines 69-74). -/
def unscheduleUpdate (now : Nat) (c : Content) : Content :=
  { c with
    scheduled_at := none
    status := ContentStatus.approved
    updated_at := now }

/-- scheduleContent (src/unnamed/part_002, lines 6-47): the time check
comes first, then existence, then the approved-status guard. -/
def scheduleContent (db : List Content) (now contentId scheduledAt : Nat) :
    Except ApiError (List Content) :=
  if scheduledAt ≤ now then
    Except.error (ApiError.validation "Cannot schedule content for a past date or current time")
  else
    match (db.filter (fun c => c.id == contentId)).head? with
    | none => Except.error (ApiError.notFound contentId)
    | some content =>
      if content.status ≠ ContentStatus.approved then
        Except.error (ApiError.precondition "Only approved content can be scheduled")
      else
        Except.ok (db.map (fun c =>
          if c.id == contentId then scheduleUpdate now scheduledAt c else c))

/-- unscheduleContent (src/unnamed/part_002, lines 49-84). -/
def unscheduleContent (db : List Content) (now contentId : Nat) :
    Except ApiError (List Content) :=
  match (db.filter (fun c => c.id == contentId)).head? with
  | none => Except.error (ApiError.notFound contentId)
  | some content =>
    if content.status ≠ ContentStatus.scheduled then
      Except.error (ApiError.precondition "Only scheduled content can be unscheduled")
    else
      Except.ok (db.map (fun c =>
        if c.id == contentId then unscheduleUpdate now c else c))

/-- A concrete content row used by witnesses and counterexamples. -/
def exContent1 : Content :=
  { id := 1
    user_id := 2
    title := "t"
    caption := "c"
    hashtags := none
    platform := Platform.instagram
    content_type := ContentType.post
    status := ContentStatus.pending_approval
    ai_generated := false
    scheduled_at := none
    approved_at := none
    approved_by := none
    rejected_reason := none
    created_at := 10
    updated_at := 10 }

/-- Concrete approval input. -/
def exApproveInput : ApproveContentInput :=
  { content_id := 1, approved_by := 5, approved := true, rejection_reason := none }

/-- Concrete rejection input with an explicitly empty reason string. -/
def exRejectEmptyInput : ApproveContentInput :=
  { content_id := 1, approved_by := 5, approved := false, rejection_reason := some "" }

/-- Concrete rejection input with a non-empty reason. -/
def exRejectInput : ApproveContentInput :=
  { content_id := 1, approved_by := 5, approved := false, rejection_reason := some "bad tone" }

/-- A concrete approved content row. -/
def exApprovedContent : Content :=
  { exContent1 with status := ContentStatus.approved }

/-- A concrete scheduled content row. -/
def exScheduledContent : Content :=
  { exContent1 with status := ContentStatus.scheduled, scheduled_at := some 30 }

/-- Input of updateContent (updateContentInputSchema in
src/server/src/schema.ts).  An outer none means the field was omitted; for
the nullable columns an inner none means the field was explicitly set to
null. -/
structure UpdateContentInput where
  id : Nat
  title : Option String
  caption : Option String
  hashtags : Option (Option String)
  platform : Option Platform
  content_type : Option ContentType
  status : Option ContentStatus
  scheduled_at : Option (Option Nat)
  rejected_reason : Option (Option String)
  deriving DecidableEq

/-- Field updates updateContent applies to the matching row
(src/server/src/handlers/update_content.ts, lines 9-44): only fields
present in the input are written, and updated_at is always refreshed. -/
def applyContentUpdate (now : Nat) (input : UpdateContentInput) (c : Content) : Content :=
  { c with
    updated_at := now
    title := input.title.getD c.title
    caption := input.caption.getD c.caption
    hashtags := input.hashtags.getD c.hashtags
    platform := input.platform.getD c.platform
    content_type := input.content_type.getD c.content_type
    status := input.status.getD c.status
    scheduled_at := input.scheduled_at.getD c.scheduled_at
    rejected_reason := input.rejected_reason.getD c.rejected_reason }

/-- updateContent (src/server/src/handlers/update_content.ts): update the
matching rows, throw NotFound when no row was updated. -/
def updateContent (db : List Content) (now : Nat) (input : UpdateContentInput) :
    Except ApiError (List Content) :=
  if (db.filter (fun c => c.id == input.id)).isEmpty then
    Except.error (ApiError.notFound input.id)
  else
    Except.ok (db.map (fun c =>
      if c.id == input.id then applyContentUpdate now input c else c))

/-- Concrete partial update: caption set, hashtags explicitly cleared,
status set to approved, everything else omitted. -/
def exUpdateInput : UpdateContentInput :=
  { id := 1
    title := none
    caption := some "new"
    hashtags := some none
    platform := none
    content_type := none
    status := some ContentStatus.approved
    scheduled_at := none
    rejected_reason := none }

/-- Order by created_at descending: the orderBy desc(created_at) of
get_pending_approvals.ts. -/
def createdDesc (a b : Content) : Prop := b.created_at ≤ a.created_at

instance : DecidableRel createdDesc := fun a b => Nat.decLe b.created_at a.created_at

instance : IsTotal Content createdDesc := ⟨fun a b => Nat.le_total b.created_at a.created_at⟩

instance : IsTrans Content createdDesc := ⟨fun _ _ _ h1 h2 => Nat.le_trans h2 h1⟩

/-- The inner-join rows of getPendingApprovals
(src/server/src/handlers/get_pending_approvals.ts, lines 29-31): content
joined to workflow instances on content_id, joined to workflow steps on
current_step_id. -/
def pendingJoin (db : DB) : List (Content × WorkflowInstanceRow × WorkflowStep) :=
  db.contents.flatMap (fun c =>
    (db.instances.filter (fun i => i.content_id == c.id)).flatMap (fun i =>
      (db.steps.filter (fun s => i.current_step_id == some s.id)).map (fun s => (c, i, s))))

/-- The where-clause of getPendingApprovals (lines 32-39). -/
def pendingMatch (userId : Nat) (c : Content) (i : WorkflowInstanceRow) (s : WorkflowStep) : Bool :=
  c.status == ContentStatus.pending_approval && s.assignee_id == some userId &&
    s.step_type == StepType.approval && i.status == "in_progress"

/-- getPendingApprovals (src/server/src/handlers/get_pending_approvals.ts):
filter the three-way join and order by created_at descending. -/
def getPendingApprovals (db : DB) (userId : Nat) : List Content :=
  List.insertionSort createdDesc
    (((pendingJoin db).filter (fun r => pendingMatch userId r.1 r.2.1 r.2.2)).map (fun r => r.1))

/-- The qualifying active instances of a content item for a user, in the
claim's sense: in_progress instances of the item whose current step is an
approval step assigned to the user. -/
def qualifyingInstances (db : DB) (userId : Nat) (c : Content) : List WorkflowInstanceRow :=
  db.instances.filter (fun i => i.content_id == c.id && i.status == "in_progress" &&
    !(db.steps.filter (fun s => i.current_step_id == some s.id &&
        s.step_type == StepType.approval && s.assignee_id == some userId)).isEmpty)

/-- A concrete user. -/
def exUser7 : User :=
  { id := 7, email := "r@x", name := "r", created_at := 0, updated_at := 0 }

/-- A concrete approval step assigned to user 7. -/
def exStep1 : WorkflowStep :=
  { id := 11
    workflow_template_id := 3
    step_order := 1
    step_type := StepType.approval
    required := true
    assignee_id := some 7
    created_at := 1 }

/-- First in_progress instance of content 1 sitting on the approval step. -/
def exInst1 : WorkflowInstanceRow :=
  { id := 21
    content_id := 1
    workflow_template_id := 3
    current_step_id := some 11
    status := "in_progress"
    started_at := 2
    completed_at := none }

/-- Second in_progress instance of the same content on the same step. -/
def exInst2 : WorkflowInstanceRow :=
  { id := 22
    content_id := 1
    workflow_template_id := 3
    current_step_id := some 11
    status := "in_progress"
    started_at := 3
    completed_at := none }

/-- Store with one pending content item carrying two qualifying active
instances. -/
def exDb3 : DB :=
  { users := [exUser7]
    contents := [exContent1]
    templates := []
    steps := [exStep1]
    instances := [exInst1, exInst2] }

/-- One step of the createWorkflowTemplate input
(createWorkflowTemplateInputSchema in src/server/src/schema.ts). -/
structure WorkflowStepInput where
  step_order : Nat
  step_type : StepType
  required : Bool
  assignee_id : Option Nat
  deriving DecidableEq

/-- Input of createWorkflowTemplate. -/
structure CreateWorkflowTemplateInput where
  user_id : Nat
  name : String
  description : Option String
  steps : List WorkflowStepInput
  deriving DecidableEq

/-- The record createWorkflowTemplate returns: the template fields plus
the normalized input steps (create_workflow_template.ts, lines 81-90). -/
structure WorkflowTemplateOutput where
  id : Nat
  user_id : Nat
  name : String
  description : Option String
  steps : List WorkflowStepInput
  is_active : Bool
  created_at : Nat
  updated_at : Nat
  deriving DecidableEq

/-- JavaScript `a || null` on an optional string: undefined and the empty
string both yield null. -/
def orNullFalsy : Option String → Option String
  | none => none
  | some s => if s = "" then none else some s

/-- Step-order validation of createWorkflowTemplate
(create_workflow_template.ts, lines 18-24): sort the order values
ascending and require position i to hold i+1. -/
def checkStepOrders (orders : List Nat) : Bool :=
  (List.range (List.insertionSort (fun a b => a ≤ b) orders).length).all
    (fun i => (List.insertionSort (fun a b => a ≤ b) orders).getD i 0 == i + 1)

/-- The template row createWorkflowTemplate inserts (lines 50-58):
is_active is hard-coded to true. -/
def newTemplateRow (now ntid : Nat) (input : CreateWorkflowTemplateInput) : WorkflowTemplate :=
  { id := ntid
    user_id := input.user_id
    name := input.name
    description := orNullFalsy input.description
    is_active := true
    created_at := now
    updated_at := now }

/-- The step rows createWorkflowTemplate inserts (lines 62-73). -/
def newStepRows (now ntid fsid : Nat) (input : CreateWorkflowTemplateInput) : List WorkflowStep :=
  input.steps.enum.map (fun p =>
    { id := fsid + p.1
      workflow_template_id := ntid
      step_order := p.2.step_order
      step_type := p.2.step_type
      required := p.2.required
      assignee_id := p.2.assignee_id
      created_at := now })

/-- The record createWorkflowTemplate returns on success. -/
def templateOutput (now ntid : Nat) (input : CreateWorkflowTemplateInput) : WorkflowTemplateOutput :=
  { id := ntid
    user_id := input.user_id
    name := input.name
    description := orNullFalsy input.description
    steps := input.steps
    is_active := (newTemplateRow now ntid input).is_active
    created_at := now
    updated_at := now }

/-- createWorkflowTemplate (src/server/src/handlers/create_workflow_template.ts):
validate the owner, the step-order sequence and every present assignee,
then insert the template row and its step rows.  ntid and fsid stand for
the serial ids the store would assign. -/
def createWorkflowTemplate (db : DB) (now ntid fsid : Nat)
    (input : CreateWorkflowTemplateInput) :
    Except ApiError (DB × WorkflowTemplateOutput) :=
  if (db.users.filter (fun u => u.id == input.user_id)).isEmpty then
    Except.error (ApiError.notFound input.user_id)
  else if !(checkStepOrders (input.steps.map (fun s => s.step_order))) then
    Except.error (ApiError.validation "Step orders must be consecutive starting from 1")
  else
    match ((input.steps.filter (fun s => s.assignee_id.isSome)).map
        (fun s => s.assignee_id.getD 0)).find?
        (fun a => (db.users.filter (fun u => u.id == a)).isEmpty) with
    | some missing => Except.error (ApiError.notFound missing)
    | none =>
      Except.ok
        ({ db with
            templates := db.templates ++ [newTemplateRow now ntid input]
            steps := db.steps ++ newStepRows now ntid fsid input },
          templateOutput now ntid input)

/-- Steps given out of order whose sorted order values are 1, 2. -/
def exStepsOutOfOrder : List WorkflowStepInput :=
  [ { step_order := 2, step_type := StepType.approval, required := true, assignee_id := none },
    { step_order := 1, step_type := StepType.generation, required := true, assignee_id := none } ]

/-- Concrete createWorkflowTemplate input with unsorted contiguous steps. -/
def exTemplateInput : CreateWorkflowTemplateInput :=
  { user_id := 7, name := "wf", description := none, steps := exStepsOutOfOrder }

/-- Store holding only user 7. -/
def exDb8 : DB :=
  { users := [exUser7], contents := [], templates := [], steps := [], instances := [] }

/-- A row with the looked-up id exists exactly when the filtered list is
non-empty. -/
theorem filter_id_isEmpty_false {db : List Content} {cid : Nat}
    (hex : ∃ c ∈ db, c.id = cid) :
    (db.filter (fun c => c.id == cid)).isEmpty = false := by
  obtain ⟨c, hc, hid⟩ := hex
  have hmem : c ∈ db.filter (fun c => c.id == cid) :=
    List.mem_filter.2 ⟨hc, by simp [hid]⟩
  cases h : (db.filter (fun c => c.id == cid)).isEmpty with
  | false => rfl
  | true =>
    rw [List.isEmpty_iff] at h
    rw [h] at hmem
    cases hmem

/-- C1: for every existing content item and approver, approveOrReject with
approved=true succeeds and leaves every row with the given id with
status=approved, approved_by the approver, approved_at set to the non-null
current timestamp and rejected_reason cleared, with no assumption on the
row's prior status. -/
theorem approve_true_sets_fields (db : List Content) (now : Nat) (input : ApproveContentInput)
    (happ : input.approved = true) (hex : ∃ c ∈ db, c.id = input.content_id) :
    ∃ db2, approveContent db now input = Except.ok db2 ∧
      ∀ c2 ∈ db2, c2.id = input.content_id →
        c2.status = ContentStatus.approved ∧
        c2.approved_by = some input.approved_by ∧
        c2.approved_at = some now ∧
        c2.rejected_reason = none := by
  have hne := filter_id_isEmpty_false hex
  refine ⟨db.map (fun c => if c.id == input.content_id then approveUpdate now input c else c),
    by simp [approveContent, hne], ?_⟩
  intro c2 hc2 hid
  obtain ⟨c, _hc, hceq⟩ := List.mem_map.1 hc2
  by_cases h : c.id = input.content_id
  · rw [if_pos (by simp [h])] at hceq
    rw [← hceq]
    simp [approveUpdate, happ]
  · rw [if_neg (by simp [h])] at hceq
    rw [← hceq] at hid
    exact absurd hid h

/-- Witness for C1 at a concrete row and input. -/
theorem approve_true_sets_fields_witness :
    ∃ db2, approveContent [exContent1] 20 exApproveInput = Except.ok db2 ∧
      ∀ c2 ∈ db2, c2.id = exApproveInput.content_id →
        c2.status = ContentStatus.approved ∧
        c2.approved_by = some exApproveInput.approved_by ∧
        c2.approved_at = some 20 ∧
        c2.rejected_reason = none :=
  approve_true_sets_fields [exContent1] 20 exApproveInput (by decide) (by decide)

/-- C2 counterexample: a rejection whose provided reason is the empty string
is stored as the default "No reason provided", not as the provided reason,
because the code uses the falsy-or operator. -/
theorem approve_reject_empty_reason_cex :
    exRejectEmptyInput.rejection_reason = some "" ∧
    approveContent [exContent1] 20 exRejectEmptyInput =
      Except.ok [{ exContent1 with
        status := ContentStatus.rejected
        rejected_reason := some "No reason provided"
        approved_by := none
        approved_at := none
        updated_at := 20 }] ∧
    ("No reason provided" : String) ≠ "" := by
  refine ⟨rfl, ?_, by decide⟩
  rfl

/-- C2 amended: approveOrReject with approved=false sets status=rejected,
clears approved_by and approved_at, and stores the provided reason when it
is non-empty; when the reason is omitted or is the empty string it stores
the fixed default "No reason provided". -/
theorem approve_false_sets_rejection (db : List Content) (now : Nat) (input : ApproveContentInput)
    (happ : input.approved = false) (hex : ∃ c ∈ db, c.id = input.content_id) :
    ∃ db2, approveContent db now input = Except.ok db2 ∧
      ∀ c2 ∈ db2, c2.id = input.content_id →
        c2.status = ContentStatus.rejected ∧
        c2.rejected_reason = some (orFalsy input.rejection_reason "No reason provided") ∧
        (∀ r, input.rejection_reason = some r → r ≠ "" → c2.rejected_reason = some r) ∧
        ((input.rejection_reason = none ∨ input.rejection_reason = some "") →
          c2.rejected_reason = some "No reason provided") ∧
        c2.approved_by = none ∧
        c2.approved_at = none := by
  have hne := filter_id_isEmpty_false hex
  refine ⟨db.map (fun c => if c.id == input.content_id then approveUpdate now input c else c),
    by simp [approveContent, hne], ?_⟩
  intro c2 hc2 hid
  obtain ⟨c, _hc, hceq⟩ := List.mem_map.1 hc2
  by_cases h : c.id = input.content_id
  · rw [if_pos (by simp [h])] at hceq
    rw [← hceq]
    refine ⟨by simp [approveUpdate, happ], by simp [approveUpdate, happ], ?_, ?_,
      by simp [approveUpdate, happ], by simp [approveUpdate, happ]⟩
    · intro r hr hrne
      simp [approveUpdate, happ, hr, orFalsy, hrne]
    · intro hcase
      rcases hcase with hnone | hempty
      · simp [approveUpdate, happ, hnone, orFalsy]
      · simp [approveUpdate, happ, hempty, orFalsy]
  · rw [if_neg (by simp [h])] at hceq
    rw [← hceq] at hid
    exact absurd hid h

/-- Witness for the amended C2 at a concrete row and a non-empty reason. -/
theorem approve_false_sets_rejection_witness :
    ∃ db2, approveContent [exContent1] 20 exRejectInput = Except.ok db2 ∧
      ∀ c2 ∈ db2, c2.id = exRejectInput.content_id →
        c2.status = ContentStatus.rejected ∧
        c2.rejected_reason = some (orFalsy exRejectInput.rejection_reason "No reason provided") ∧
        (∀ r, exRejectInput.rejection_reason = some r → r ≠ "" → c2.rejected_reason = some r) ∧
        ((exRejectInput.rejection_reason = none ∨ exRejectInput.rejection_reason = some "") →
          c2.rejected_reason = some "No reason provided") ∧
        c2.approved_by = none ∧
        c2.approved_at = none :=
  approve_false_sets_rejection [exContent1] 20 exRejectInput (by decide) (by decide)

/-- A member of an id-guarded row update that carries the guarded id comes
from applying the update to some row of the table. -/
theorem mem_update_row {db : List Content} {cid : Nat} {g : Content → Content} {c2 : Content}
    (hc2 : c2 ∈ db.map (fun x => if x.id == cid then g x else x))
    (hid : c2.id = cid) :
    ∃ c ∈ db, c2 = g c := by
  obtain ⟨c, hc, hceq⟩ := List.mem_map.1 hc2
  by_cases h : c.id = cid
  · rw [if_pos (by simp [h])] at hceq
    exact ⟨c, hc, hceq.symm⟩
  · rw [if_neg (by simp [h])] at hceq
    rw [← hceq] at hid
    exact absurd hid h

/-- Filtering on the guarded id commutes with an id-preserving guarded
update: the first matching row of the updated table is the update of the
first matching row of the original table. -/
theorem head_filter_map_update (db : List Content) (cid : Nat) (g : Content → Content)
    (hg : ∀ x, (g x).id = x.id) :
    ((db.map (fun x => if x.id == cid then g x else x)).filter
        (fun x => x.id == cid)).head? =
      Option.map g ((db.filter (fun x => x.id == cid)).head?) := by
  induction db with
  | nil => rfl
  | cons a l ih =>
    by_cases h : a.id = cid
    · simp [List.filter_cons, hg, h]
    · have hcond : (a.id == cid) = false := by simp [h]
      simp only [List.map_cons, List.filter_cons, hcond, Bool.false_eq_true, if_false]
      exact ih

/-- Two successive id-guarded updates compose pointwise when the first
preserves the id. -/
theorem map_update_twice (db : List Content) (cid : Nat) (g1 g2 : Content → Content)
    (hg : ∀ x, (g1 x).id = x.id) :
    (db.map (fun x => if x.id == cid then g1 x else x)).map
        (fun x => if x.id == cid then g2 x else x) =
      db.map (fun x => if x.id == cid then g2 (g1 x) else x) := by
  rw [List.map_map]
  apply List.map_congr_left
  intro a _
  by_cases h : a.id = cid
  · simp [Function.comp_apply, h, hg]
  · simp [Function.comp_apply, h]

/-- C4: for an existing content row and a strictly future timestamp,
scheduleContent fails with the PreconditionFailed error when the row's
status is not approved, and otherwise succeeds, setting status=scheduled,
scheduled_at to the given time and refreshing updated_at. -/
theorem schedule_requires_approved (db : List Content) (now t cid : Nat) (c : Content)
    (hfut : now < t)
    (hhead : (db.filter (fun x => x.id == cid)).head? = some c) :
    (c.status ≠ ContentStatus.approved →
      scheduleContent db now cid t =
        Except.error (ApiError.precondition "Only approved content can be scheduled")) ∧
    (c.status = ContentStatus.approved →
      ∃ db2, scheduleContent db now cid t = Except.ok db2 ∧
        ∀ c2 ∈ db2, c2.id = cid →
          c2.status = ContentStatus.scheduled ∧
          c2.scheduled_at = some t ∧
          c2.updated_at = now) := by
  have hnle : ¬ (t ≤ now) := by omega
  constructor
  · intro hst
    simp [scheduleContent, hnle, hhead, hst]
  · intro hst
    refine ⟨db.map (fun x => if x.id == cid then scheduleUpdate now t x else x),
      by simp [scheduleContent, hnle, hhead, hst], ?_⟩
    intro c2 hc2 hid
    obtain ⟨c0, _, hceq⟩ := mem_update_row hc2 hid
    rw [hceq]
    exact ⟨rfl, rfl, rfl⟩

/-- Witness for C4 at a concrete approved row. -/
theorem schedule_requires_approved_witness :
    ((exApprovedContent.status ≠ ContentStatus.approved →
      scheduleContent [exApprovedContent] 20 1 30 =
        Except.error (ApiError.precondition "Only approved content can be scheduled")) ∧
    (exApprovedContent.status = ContentStatus.approved →
      ∃ db2, scheduleContent [exApprovedContent] 20 1 30 = Except.ok db2 ∧
        ∀ c2 ∈ db2, c2.id = 1 →
          c2.status = ContentStatus.scheduled ∧
          c2.scheduled_at = some 30 ∧
          c2.updated_at = 20)) :=
  schedule_requires_approved [exApprovedContent] 20 30 1 exApprovedContent
    (by decide) (by decide)

/-- C5: a timestamp at or before the current time makes scheduleContent
fail with the past-or-current-time ValidationError for every table and
every content id, existing or not, so the time check precedes the
existence and status checks. -/
theorem schedule_past_time_fails (db : List Content) (now t cid : Nat) (hpast : t ≤ now) :
    scheduleContent db now cid t =
      Except.error (ApiError.validation "Cannot schedule content for a past date or current time") := by
  simp [scheduleContent, hpast]

/-- Witness for C5: an empty table (so the id does not exist) still
produces the time ValidationError. -/
theorem schedule_past_time_fails_witness :
    scheduleContent [] 5 1 5 =
      Except.error (ApiError.validation "Cannot schedule content for a past date or current time") :=
  schedule_past_time_fails [] 5 5 1 (by decide)

/-- C6: unscheduleContent fails with NotFound when no row has the id,
fails with PreconditionFailed when the row's status is not scheduled, and
when the row is scheduled succeeds, setting status=approved, clearing
scheduled_at and refreshing updated_at. -/
theorem unschedule_guards_and_effects (db : List Content) (now cid : Nat) :
    ((∀ c ∈ db, c.id ≠ cid) →
      unscheduleContent db now cid = Except.error (ApiError.notFound cid)) ∧
    (∀ c, (db.filter (fun x => x.id == cid)).head? = some c →
      (c.status ≠ ContentStatus.scheduled →
        unscheduleContent db now cid =
          Except.error (ApiError.precondition "Only scheduled content can be unscheduled")) ∧
      (c.status = ContentStatus.scheduled →
        ∃ db2, unscheduleContent db now cid = Except.ok db2 ∧
          ∀ c2 ∈ db2, c2.id = cid →
            c2.status = ContentStatus.approved ∧
            c2.scheduled_at = none ∧
            c2.updated_at = now)) := by
  constructor
  · intro hno
    have hnil : db.filter (fun x => x.id == cid) = [] := by
      rw [List.filter_eq_nil_iff]
      intro a ha
      simpa using hno a ha
    simp [unscheduleContent, hnil]
  · intro c hhead
    constructor
    · intro hst
      simp [unscheduleContent, hhead, hst]
    · intro hst
      refine ⟨db.map (fun x => if x.id == cid then unscheduleUpdate now x else x),
        by simp [unscheduleContent, hhead, hst], ?_⟩
      intro c2 hc2 hid
      obtain ⟨c0, _, hceq⟩ := mem_update_row hc2 hid
      rw [hceq]
      exact ⟨rfl, rfl, rfl⟩

/-- Witness for C6: its success branch applied at a concrete scheduled
row, and its NotFound branch applied at the empty table. -/
theorem unschedule_guards_and_effects_witness :
    (∃ db2, unscheduleContent [exScheduledContent] 40 1 = Except.ok db2 ∧
      ∀ c2 ∈ db2, c2.id = 1 →
        c2.status = ContentStatus.approved ∧
        c2.scheduled_at = none ∧
        c2.updated_at = 40) ∧
    unscheduleContent [] 40 1 = Except.error (ApiError.notFound 1) :=
  ⟨((unschedule_guards_and_effects [exScheduledContent] 40 1).2 exScheduledContent
      (by decide)).2 (by decide),
    (unschedule_guards_and_effects [] 40 1).1 (by decide)⟩

/-- C7: scheduling an approved row at a future time and then unscheduling
it succeeds and returns the table to a state whose matching rows have
status=approved and scheduled_at cleared; the final table is an expression
in which the chosen timestamp does not occur, so no history of it is
retained. -/
theorem schedule_unschedule_roundtrip (db : List Content) (now t now2 cid : Nat) (c : Content)
    (hfut : now < t)
    (hhead : (db.filter (fun x => x.id == cid)).head? = some c)
    (happ : c.status = ContentStatus.approved) :
    ∃ db1, scheduleContent db now cid t = Except.ok db1 ∧
      unscheduleContent db1 now2 cid =
        Except.ok (db.map (fun x => if x.id == cid then unscheduleUpdate now2 x else x)) ∧
      ∀ c2 ∈ db.map (fun x => if x.id == cid then unscheduleUpdate now2 x else x),
        c2.id = cid →
          c2.status = ContentStatus.approved ∧ c2.scheduled_at = none := by
  have hnle : ¬ (t ≤ now) := by omega
  refine ⟨db.map (fun x => if x.id == cid then scheduleUpdate now t x else x),
    by simp [scheduleContent, hnle, hhead, happ], ?_, ?_⟩
  · have hhead1 :
        ((db.map (fun x => if x.id == cid then scheduleUpdate now t x else x)).filter
          (fun x => x.id == cid)).head? = some (scheduleUpdate now t c) := by
      rw [head_filter_map_update db cid (scheduleUpdate now t) (fun x => rfl), hhead]
      rfl
    have hcomp := map_update_twice db cid (scheduleUpdate now t) (unscheduleUpdate now2)
      (fun x => rfl)
    simp only [unscheduleContent, hhead1]
    rw [if_neg (by simp [scheduleUpdate])]
    rw [hcomp]
    rfl
  · intro c2 hc2 hid
    obtain ⟨c0, _, hceq⟩ := mem_update_row hc2 hid
    rw [hceq]
    exact ⟨rfl, rfl⟩

/-- Witness for C7 at a concrete approved row and two future times. -/
theorem schedule_unschedule_roundtrip_witness :
    ∃ db1, scheduleContent [exApprovedContent] 20 1 30 = Except.ok db1 ∧
      unscheduleContent db1 40 1 =
        Except.ok ([exApprovedContent].map
          (fun x => if x.id == 1 then unscheduleUpdate 40 x else x)) ∧
      ∀ c2 ∈ [exApprovedContent].map
          (fun x => if x.id == 1 then unscheduleUpdate 40 x else x),
        c2.id = 1 →
          c2.status = ContentStatus.approved ∧ c2.scheduled_at = none :=
  schedule_unschedule_roundtrip [exApprovedContent] 20 30 40 1 exApprovedContent
    (by decide) (by decide) (by decide)

/-- A list whose member satisfies the filter predicate filters to a
non-empty list. -/
theorem filter_isEmpty_false_of_mem {α : Type} {l : List α} {p : α → Bool} {x : α}
    (hx : x ∈ l) (hpx : p x = true) : (l.filter p).isEmpty = false := by
  cases h : (l.filter p).isEmpty with
  | false => rfl
  | true =>
    rw [List.isEmpty_iff] at h
    have hmem : x ∈ l.filter p := List.mem_filter.2 ⟨hx, hpx⟩
    rw [h] at hmem
    cases hmem

/-- C9: a successful updateContent maps exactly the rows with the given id
through applyContentUpdate, and that update always refreshes updated_at,
never touches approved_at or approved_by even when the input sets
status=approved, leaves every omitted field unchanged, and writes every
present field with its given value, a present null clearing the column. -/
theorem update_content_frame (db : List Content) (now : Nat) (input : UpdateContentInput)
    (db2 : List Content) (h : updateContent db now input = Except.ok db2) :
    db2 = db.map (fun c => if c.id == input.id then applyContentUpdate now input c else c) ∧
    ∀ c : Content,
      (applyContentUpdate now input c).updated_at = now ∧
      (applyContentUpdate now input c).approved_at = c.approved_at ∧
      (applyContentUpdate now input c).approved_by = c.approved_by ∧
      (input.title = none → (applyContentUpdate now input c).title = c.title) ∧
      (input.caption = none → (applyContentUpdate now input c).caption = c.caption) ∧
      (input.hashtags = none → (applyContentUpdate now input c).hashtags = c.hashtags) ∧
      (input.platform = none → (applyContentUpdate now input c).platform = c.platform) ∧
      (input.content_type = none →
        (applyContentUpdate now input c).content_type = c.content_type) ∧
      (input.status = none → (applyContentUpdate now input c).status = c.status) ∧
      (input.scheduled_at = none →
        (applyContentUpdate now input c).scheduled_at = c.scheduled_at) ∧
      (input.rejected_reason = none →
        (applyContentUpdate now input c).rejected_reason = c.rejected_reason) ∧
      (∀ v, input.title = some v → (applyContentUpdate now input c).title = v) ∧
      (∀ v, input.caption = some v → (applyContentUpdate now input c).caption = v) ∧
      (∀ v, input.hashtags = some v → (applyContentUpdate now input c).hashtags = v) ∧
      (∀ v, input.platform = some v → (applyContentUpdate now input c).platform = v) ∧
      (∀ v, input.content_type = some v →
        (applyContentUpdate now input c).content_type = v) ∧
      (∀ v, input.status = some v → (applyContentUpdate now input c).status = v) ∧
      (∀ v, input.scheduled_at = some v →
        (applyContentUpdate now input c).scheduled_at = v) ∧
      (∀ v, input.rejected_reason = some v →
        (applyContentUpdate now input c).rejected_reason = v) := by
  constructor
  · unfold updateContent at h
    by_cases he : (db.filter (fun c => c.id == input.id)).isEmpty = true
    · rw [if_pos he] at h
      exact Except.noConfusion h
    · rw [if_neg he] at h
      injection h with h2
      exact h2.symm
  · intro c
    refine ⟨rfl, rfl, rfl, ?_, ?_, ?_, ?_, ?_, ?_, ?_, ?_, ?_, ?_, ?_, ?_, ?_, ?_, ?_, ?_⟩ <;>
      (intros; simp [applyContentUpdate, *])

/-- Witness for C9: the frame equation at a concrete row and update. -/
theorem update_content_frame_witness :
    [applyContentUpdate 50 exUpdateInput exContent1] =
      [exContent1].map (fun c =>
        if c.id == exUpdateInput.id then applyContentUpdate 50 exUpdateInput c else c) :=
  (update_content_frame [exContent1] 50 exUpdateInput
    [applyContentUpdate 50 exUpdateInput exContent1] (by rfl)).1

/-- C10: every template createWorkflowTemplate persists and returns has
is_active=true; the input carries no is_active field. -/
theorem create_template_always_active (db : DB) (now ntid fsid : Nat)
    (input : CreateWorkflowTemplateInput) (db2 : DB) (out : WorkflowTemplateOutput)
    (h : createWorkflowTemplate db now ntid fsid input = Except.ok (db2, out)) :
    out.is_active = true ∧
    ∃ tpl, db2.templates = db.templates ++ [tpl] ∧ tpl.id = ntid ∧ tpl.is_active = true := by
  unfold createWorkflowTemplate at h
  split at h
  · exact Except.noConfusion h
  · split at h
    · exact Except.noConfusion h
    · split at h
      · exact Except.noConfusion h
      · injection h with h2
        injection h2 with hdb hout
        subst hdb
        subst hout
        exact ⟨rfl, newTemplateRow now ntid input, rfl, rfl, rfl⟩

/-- Witness for C10 at a concrete store and input. -/
theorem create_template_always_active_witness :
    (templateOutput 5 100 exTemplateInput).is_active = true :=
  (create_template_always_active exDb8 5 100 200 exTemplateInput
    { exDb8 with
        templates := exDb8.templates ++ [newTemplateRow 5 100 exTemplateInput]
        steps := exDb8.steps ++ newStepRows 5 100 200 exTemplateInput }
    (templateOutput 5 100 exTemplateInput) (by rfl)).1

/-- The step-order check passes exactly when the ascending sort of the
order values is the contiguous sequence 1..N. -/
theorem checkStepOrders_iff (orders : List Nat) :
    checkStepOrders orders = true ↔
      List.insertionSort (fun a b => a ≤ b) orders = List.range' 1 orders.length := by
  have hlen : (List.insertionSort (fun a b => a ≤ b) orders).length = orders.length :=
    (List.perm_insertionSort (fun a b => a ≤ b) orders).length_eq
  unfold checkStepOrders
  rw [List.all_eq_true]
  constructor
  · intro h
    apply List.ext_getElem (by simp [hlen])
    intro i h1 h2
    have hi := h i (List.mem_range.2 h1)
    rw [beq_iff_eq, List.getD_eq_getElem _ 0 h1] at hi
    rw [hi, List.getElem_range']
    omega
  · intro h i hi
    have h1 : i < (List.insertionSort (fun a b => a ≤ b) orders).length := List.mem_range.1 hi
    have h2 : i < (List.range' 1 orders.length).length := by simp; omega
    rw [beq_iff_eq, h, List.getD_eq_getElem _ 0 h2, List.getElem_range']
    omega

/-- C8: with an existing owner and existing assignees, createWorkflowTemplate
returns a ValidationError exactly when the sorted step_order values are
not the contiguous sequence 1..N, and succeeds when they are, so an input
whose steps arrive out of order but sort to 1..N is accepted. -/
theorem create_template_step_order_validation (db : DB) (now ntid fsid : Nat)
    (input : CreateWorkflowTemplateInput)
    (huser : ∃ u ∈ db.users, u.id = input.user_id)
    (hassign : ∀ s ∈ input.steps, ∀ a, s.assignee_id = some a → ∃ u ∈ db.users, u.id = a) :
    ((∃ msg, createWorkflowTemplate db now ntid fsid input =
        Except.error (ApiError.validation msg)) ↔
      List.insertionSort (fun a b => a ≤ b) (input.steps.map (fun s => s.step_order)) ≠
        List.range' 1 input.steps.length) ∧
    (List.insertionSort (fun a b => a ≤ b) (input.steps.map (fun s => s.step_order)) =
        List.range' 1 input.steps.length →
      ∃ db2 out, createWorkflowTemplate db now ntid fsid input = Except.ok (db2, out)) := by
  obtain ⟨u, hu, huid⟩ := huser
  have husers : (db.users.filter (fun v => v.id == input.user_id)).isEmpty = false :=
    filter_isEmpty_false_of_mem hu (by simp [huid])
  have hfind : ((input.steps.filter (fun s => s.assignee_id.isSome)).map
      (fun s => s.assignee_id.getD 0)).find?
      (fun a => (db.users.filter (fun v => v.id == a)).isEmpty) = none := by
    rw [List.find?_eq_none]
    intro a ha
    obtain ⟨s, hs, hsa⟩ := List.mem_map.1 ha
    obtain ⟨hsmem, hsome⟩ := List.mem_filter.1 hs
    obtain ⟨a0, ha0⟩ := Option.isSome_iff_exists.1 hsome
    rw [ha0] at hsa
    obtain ⟨u2, hu2, hu2id⟩ := hassign s hsmem a0 ha0
    have hne : (db.users.filter (fun v => v.id == a)).isEmpty = false :=
      filter_isEmpty_false_of_mem hu2
        (by simp at hsa; simp [hu2id, ← hsa])
    simp [hne]
  have hkey : ∀ hck : checkStepOrders (input.steps.map (fun s => s.step_order)) = true,
      createWorkflowTemplate db now ntid fsid input =
        Except.ok
          ({ db with
              templates := db.templates ++ [newTemplateRow now ntid input]
              steps := db.steps ++ newStepRows now ntid fsid input },
            templateOutput now ntid input) := by
    intro hck
    simp [createWorkflowTemplate, husers, hck, hfind]
  have hlenmap : (input.steps.map (fun s => s.step_order)).length = input.steps.length :=
    List.length_map _ _
  constructor
  · constructor
    · rintro ⟨msg, hmsg⟩ hsorted
      have hck : checkStepOrders (input.steps.map (fun s => s.step_order)) = true := by
        rw [checkStepOrders_iff, hlenmap]
        exact hsorted
      rw [hkey hck] at hmsg
      exact Except.noConfusion hmsg
    · intro hne
      have hck : checkStepOrders (input.steps.map (fun s => s.step_order)) = false := by
        cases hc : checkStepOrders (input.steps.map (fun s => s.step_order)) with
        | false => rfl
        | true =>
          have := (checkStepOrders_iff _).1 hc
          rw [hlenmap] at this
          exact absurd this hne
      exact ⟨"Step orders must be consecutive starting from 1",
        by simp [createWorkflowTemplate, husers, hck]⟩
  · intro hsorted
    have hck : checkStepOrders (input.steps.map (fun s => s.step_order)) = true := by
      rw [checkStepOrders_iff, hlenmap]
      exact hsorted
    exact ⟨_, _, hkey hck⟩

/-- Witness for C8: user 7 exists, the steps arrive as orders 2, 1, and the
input is accepted since the sorted orders are 1, 2. -/
theorem create_template_step_order_validation_witness :
    ((∃ msg, createWorkflowTemplate exDb8 5 100 200 exTemplateInput =
        Except.error (ApiError.validation msg)) ↔
      List.insertionSort (fun a b => a ≤ b)
          (exTemplateInput.steps.map (fun s => s.step_order)) ≠
        List.range' 1 exTemplateInput.steps.length) ∧
    (List.insertionSort (fun a b => a ≤ b)
          (exTemplateInput.steps.map (fun s => s.step_order)) =
        List.range' 1 exTemplateInput.steps.length →
      ∃ db2 out, createWorkflowTemplate exDb8 5 100 200 exTemplateInput =
        Except.ok (db2, out)) :=
  create_template_step_order_validation exDb8 5 100 200 exTemplateInput
    (by decide)
    (by
      intro s hs a ha
      rcases (by simpa [exTemplateInput, exStepsOutOfOrder] using hs : _ ∨ _) with h | h <;>
        (rw [h] at ha; exact Option.noConfusion ha))

/-- Membership in the three-way join of getPendingApprovals. -/
theorem mem_pendingJoin (db : DB) (c : Content) (i : WorkflowInstanceRow) (s : WorkflowStep) :
    (c, i, s) ∈ pendingJoin db ↔
      c ∈ db.contents ∧ i ∈ db.instances ∧ s ∈ db.steps ∧
      i.content_id = c.id ∧ i.current_step_id = some s.id := by
  simp only [pendingJoin, List.mem_flatMap, List.mem_filter, List.mem_map, Prod.mk.injEq]
  constructor
  · rintro ⟨c0, hc0, i0, ⟨hi0, hi0f⟩, s0, ⟨hs0, hs0f⟩, hc, hi, hs⟩
    subst hc
    subst hi
    subst hs
    exact ⟨hc0, hi0, hs0, by simpa using hi0f, by simpa using hs0f⟩
  · rintro ⟨hc, hi, hs, hcid, hstep⟩
    exact ⟨c, hc, i, ⟨hi, by simp [hcid]⟩, s, ⟨hs, by simp [hstep]⟩, rfl, rfl, rfl⟩

/-- The where-clause as a proposition. -/
theorem pendingMatch_iff (u : Nat) (c : Content) (i : WorkflowInstanceRow) (s : WorkflowStep) :
    pendingMatch u c i s = true ↔
      c.status = ContentStatus.pending_approval ∧ s.assignee_id = some u ∧
      s.step_type = StepType.approval ∧ i.status = "in_progress" := by
  simp [pendingMatch, and_assoc]

/-- C3 amended: getPendingApprovals returns a content item exactly when
some in_progress instance of it points at an approval step assigned to
the user while the item is pending_approval (an item with several such
instances may appear several times); the result is ordered by created_at
descending, and is the empty list when nothing matches. -/
theorem pending_approvals_query (db : DB) (u : Nat) :
    (∀ c, c ∈ getPendingApprovals db u ↔
      ∃ i ∈ db.instances, ∃ s ∈ db.steps, c ∈ db.contents ∧
        i.content_id = c.id ∧ i.current_step_id = some s.id ∧
        c.status = ContentStatus.pending_approval ∧ s.assignee_id = some u ∧
        s.step_type = StepType.approval ∧ i.status = "in_progress") ∧
    (getPendingApprovals db u).Sorted createdDesc ∧
    ((∀ c ∈ db.contents, ∀ i ∈ db.instances, ∀ s ∈ db.steps,
        ¬(i.content_id = c.id ∧ i.current_step_id = some s.id ∧
          c.status = ContentStatus.pending_approval ∧ s.assignee_id = some u ∧
          s.step_type = StepType.approval ∧ i.status = "in_progress")) →
      getPendingApprovals db u = []) := by
  have hmem : ∀ c, c ∈ getPendingApprovals db u ↔
      ∃ i ∈ db.instances, ∃ s ∈ db.steps, c ∈ db.contents ∧
        i.content_id = c.id ∧ i.current_step_id = some s.id ∧
        c.status = ContentStatus.pending_approval ∧ s.assignee_id = some u ∧
        s.step_type = StepType.approval ∧ i.status = "in_progress" := by
    intro c
    rw [getPendingApprovals, (List.perm_insertionSort createdDesc _).mem_iff, List.mem_map]
    constructor
    · rintro ⟨⟨c0, i0, s0⟩, hr, hc⟩
      obtain ⟨hjoin, hmat⟩ := List.mem_filter.1 hr
      obtain ⟨hc0, hi0, hs0, hcid, hstep⟩ := (mem_pendingJoin db c0 i0 s0).1 hjoin
      obtain ⟨hst, hass, hty, hip⟩ := (pendingMatch_iff u c0 i0 s0).1 hmat
      cases hc
      exact ⟨i0, hi0, s0, hs0, hc0, hcid, hstep, hst, hass, hty, hip⟩
    · rintro ⟨i, hi, s, hs, hc, hcid, hstep, hst, hass, hty, hip⟩
      exact ⟨(c, i, s),
        List.mem_filter.2 ⟨(mem_pendingJoin db c i s).2 ⟨hc, hi, hs, hcid, hstep⟩,
          (pendingMatch_iff u c i s).2 ⟨hst, hass, hty, hip⟩⟩, rfl⟩
  refine ⟨hmem, List.sorted_insertionSort createdDesc _, ?_⟩
  intro hnone
  rw [List.eq_nil_iff_forall_not_mem]
  intro c hc
  obtain ⟨i, hi, s, hs, hcm, hrest⟩ := (hmem c).1 hc
  exact hnone c hcm i hi s hs hrest

/-- C3 counterexample: content 1 has two qualifying active instances, yet
it appears in getPendingApprovals for user 7 (twice), so an item does not
appear only when it has exactly one qualifying active instance. -/
theorem pending_approvals_dup_instance_cex :
    (qualifyingInstances exDb3 7 exContent1).length = 2 ∧
    (getPendingApprovals exDb3 7).count exContent1 = 2 := by
  decide

end ContentWorkflow
